import Mathlib

/-!
# Verification of the PDF-to-CSV batch extractor

Shallow embedding of `src/pdf-json-csv.py`: a batch orchestrator that, for
each PDF in a directory, drives a remote extraction service (upload, thread
creation, run submission, status polling, message scan, cleanup), retries
each document up to 3 times with exponential backoff, and writes one CSV row
per document.

The remote service, the file system and the clock are modelled as an
environment (`AttemptEnv`) supplying the outcome of each external call of
one `process_pdf` invocation.  Time is abstracted to counts of sleeps: each
poll sleep is 5 time-units (`time.sleep(5)`), each backoff sleep between
retry attempts is `2 ^ attempt` time-units.  A JSON opening brace is written
with the escape \x7b throughout.
-/

set_option maxRecDepth 4000

/-- JSON values as they occur in the extraction schema: strings, arrays of
strings (`keywords`), and integers (`page_count`). -/
inductive Val where
  | str (s : String)
  | arr (xs : List String)
  | int (n : Int)
deriving DecidableEq

/-- Python `str` of a value, as used for `str(e)` on an exception message
built from the value (`RuntimeError(result["error"])`). -/
def pyStr : Val → String
  | .str s => s
  | .int n => toString n
  | .arr xs => "[" ++ String.intercalate ", " (xs.map fun s => "'" ++ s ++ "'") ++ "]"

/-- A dictionary (Python `dict` with string keys) is modelled as an
association list where lookup returns the most recent binding. -/
abbrev Dict := List (String × Val)

/-- Dict assignment `d[k] = v`: the new binding shadows any older one. -/
def dset (d : Dict) (k : String) (v : Val) : Dict := (k, v) :: d

/-- Python `d.update(src)`: assign every binding of `src` into `d`, in
order, later bindings shadowing earlier ones. -/
def dupdate (d : Dict) (src : Dict) : Dict :=
  src.foldl (fun acc kv => dset acc kv.1 kv.2) d

/-- The binding a Python dict built from the pairs of `p` (in order, later
bindings winning) associates to `k`: the last binding of `k` in `p`.  For a
record returned by `json.loads` this is the record's field `k`. -/
def dget (p : Dict) (k : String) : Option Val := p.reverse.lookup k

/-- One content item of a thread message (`message.content` in line 116):
either a `Text` item carrying its text value together with the result of
`json.loads` on that value, or a non-text item. -/
inductive ContentItem where
  | text (value : String) (parsed : Except String Dict)
  | nonText

/-- Environment of one `process_pdf` invocation: the outcome of every
external call the attempt can make.  `retrieve n` is the status returned by
the n-th `runs.retrieve` call; `deleteOk` tells whether the cleanup
`files.delete` call succeeds. -/
structure AttemptEnv where
  upload : Except String String
  threadCreate : Except String String
  runCreate : Except String String
  initialStatus : String
  retrieve : Nat → String
  messages : List (List ContentItem)
  deleteOk : Bool

/-- Replace only the `deleteOk` component of an environment. -/
def setDeleteOk (env : AttemptEnv) (b : Bool) : AttemptEnv :=
  ⟨env.upload, env.threadCreate, env.runCreate, env.initialStatus,
    env.retrieve, env.messages, b⟩

/-- Observable outcome of one `process_pdf` invocation: the returned dict,
the file ids for which a deletion call was issued, the number of poll
sleeps (each 5 time-units), and whether a deletion-failure warning was
logged. -/
structure AttemptResult where
  payload : Dict
  deletes : List String
  sleeps : Nat
  deleteFailLogged : Bool

/-- The terminal run statuses of the polling loop (line 99). -/
def terminalStatuses : List String := ["completed", "failed", "cancelled", "expired"]

/-- Whether a run status is terminal. -/
def isTerminal (s : String) : Bool := terminalStatuses.contains s

/-- The polling loop of lines 98-107.  `k` counts the sleeps (and
retrieves) done so far, so the elapsed time at the loop head is `5 * k`
time-units; the loop raises `TimeoutError` when the elapsed time exceeds
300.  The `fuel` parameter only makes the recursion structural: because the
timeout check stops the loop at `k = 61`, the fuel-exhausted base case is
unreachable whenever `fuel + k = 62`, which holds at the call site
(`pollRun` starts with fuel 62 and `k = 0`). -/
def pollLoop (retrieve : Nat → String) : Nat → String → Nat → Except String String × Nat
  | 0, s, k =>
    if isTerminal s then (.ok s, k) else (.error "Processing timed out", k)
  | fuel + 1, s, k =>
    if isTerminal s then (.ok s, k)
    else if 5 * k > 300 then (.error "Processing timed out", k)
    else pollLoop retrieve fuel (retrieve k) (k + 1)

/-- The status observed at the k-th check of the polling loop: the status
from `runs.create` first, then the status of the (k-1)-th retrieve. -/
def statusAt (retrieve : Nat → String) (s0 : String) : Nat → String
  | 0 => s0
  | k + 1 => retrieve k

/-- The whole polling phase of one attempt. -/
def pollRun (env : AttemptEnv) : Except String String × Nat :=
  pollLoop env.retrieve 62 env.initialStatus 0

/-- The check value.startswith of line 118 with the one-character pattern
of the source: the first character of the string is a JSON opening brace. -/
def startsWithBrace (v : String) : Bool :=
  match v.data with
  | [] => false
  | c :: _ => c == '\x7b'

/-- Scan of one message content list (lines 116-119): the first `Text` item
whose value starts with a JSON opening brace wins, and the attempt then
returns the result of `json.loads` on it (a parse failure propagates as the
attempt's exception). -/
def scanItems : List ContentItem → Option (Except String Dict)
  | [] => none
  | .text v parsed :: rest =>
    if startsWithBrace v then some parsed else scanItems rest
  | .nonText :: rest => scanItems rest

/-- Scan of all messages (lines 115-121): first matching content item over
all messages, else the `ValueError` of line 121. -/
def scanMsgs : List (List ContentItem) → Except String Dict
  | [] => .error "No structured data found in response"
  | m :: rest =>
    match scanItems m with
    | some r => r
    | none => scanMsgs rest

/-- Body of `process_pdf` after a successful upload (lines 82-121): thread
creation, run creation, polling, terminal-status check, message scan.
Returns the attempt's outcome (payload, or the raised exception's message)
and the number of poll sleeps. -/
def processBody (env : AttemptEnv) : Except String Dict × Nat :=
  match env.threadCreate with
  | .error e => (.error e, 0)
  | .ok _ =>
    match env.runCreate with
    | .error e => (.error e, 0)
    | .ok _ =>
      match pollRun env with
      | (.error e, k) => (.error e, k)
      | (.ok st, k) =>
        if st == "completed" then (scanMsgs env.messages, k)
        else (.error ("Processing failed with status: " ++ st), k)

/-- The document-local outcome of one attempt, before the error-to-dict
conversion of lines 123-125: upload failure short-circuits the body. -/
def attemptOutcome (env : AttemptEnv) : Except String Dict :=
  match env.upload with
  | .error e => .error e
  | .ok _ => (processBody env).1

/-- `process_pdf` (lines 74-132).  Every document-local exception is caught
and converted to the dict with the single key "error" (lines 123-125).  The
`finally` block (lines 126-132) issues a deletion call exactly when the
upload succeeded; a deletion failure is only logged. -/
def process_pdf (env : AttemptEnv) : AttemptResult :=
  match env.upload with
  | .error e => ⟨[("error", Val.str e)], [], 0, false⟩
  | .ok fid =>
    { payload :=
        match (processBody env).1 with
        | .ok p => p
        | .error e => [("error", Val.str e)]
      deletes := [fid]
      sleeps := (processBody env).2
      deleteFailLogged := !env.deleteOk }

/-- One iteration of the retry loop's body (lines 159-161): call
`process_pdf`; if the returned dict has an "error" key, raise
`RuntimeError(result["error"])`, whose message is the Python `str` of the
value. -/
def attemptOnce (env : AttemptEnv) : Except String Dict :=
  match (process_pdf env).payload.lookup "error" with
  | some v => .error (pyStr v)
  | none => .ok (process_pdf env).payload

/-- The retry loop `for attempt in range(3)` (lines 157-168), recursing on
the list of remaining attempt indices (always called on `[0, 1, 2]`).
Returns the final outcome, the number of attempts made, and the list of
backoff sleep durations (`2 ^ attempt`, slept only when the failed attempt
is not the last, line 166-168). -/
def retryGo (envs : Nat → AttemptEnv) : List Nat → Except String Dict × Nat × List Nat
  | [] => (.error "", 0, [])
  | a :: rest =>
    match attemptOnce (envs a) with
    | .ok p => (.ok p, 1, [])
    | .error e =>
      if a == 2 then (.error e, 1, [])
      else
        match retryGo envs rest with
        | (r, n, bs) => (r, n + 1, 2 ^ a :: bs)

/-- The full retry loop over attempts 0, 1, 2. -/
def retryFull (envs : Nat → AttemptEnv) : Except String Dict × Nat × List Nat :=
  retryGo envs [0, 1, 2]

/-- The keys of the extraction function schema's properties, in declaration
order (lines 28-39). -/
def schemaFields : List String :=
  ["title", "author", "date", "keywords", "summary", "page_count"]

/-- The CSV fieldnames (line 141). -/
def fieldnames : List String := "filename" :: schemaFields ++ ["error"]

/-- The row dict built for one document (lines 153-171): start from the
filename, then on success merge the result and clear the error field, on
final failure set only the error field. -/
def docRow (name : String) (envs : Nat → AttemptEnv) : Dict :=
  let row0 : Dict := [("filename", Val.str name)]
  match (retryFull envs).1 with
  | .ok p => dset (dupdate row0 p) "error" (Val.str "")
  | .error e => dset row0 "error" (Val.str e)

/-- One written CSV data row: the cell of each of the 8 columns, `none`
standing for a key absent from the row dict (rendered as the empty cell by
`csv.DictWriter`). -/
structure Row where
  filename : Option Val
  title : Option Val
  author : Option Val
  date : Option Val
  keywords : Option Val
  summary : Option Val
  page_count : Option Val
  error : Option Val
deriving DecidableEq

/-- Render a row dict into the 8 columns, by key lookup. -/
def renderRow (d : Dict) : Row :=
  { filename := d.lookup "filename"
    title := d.lookup "title"
    author := d.lookup "author"
    date := d.lookup "date"
    keywords := d.lookup "keywords"
    summary := d.lookup "summary"
    page_count := d.lookup "page_count"
    error := d.lookup "error" }

/-- The document loop of `main` (lines 151-174).  Each document is a name
together with the environment of each of its attempts.  `writer.writerow`
(line 173) raises `ValueError` when the row dict holds a key outside
`fieldnames`; that exception is not caught, so it aborts the batch: the
boolean result records whether the batch ran to completion. -/
def runBatch : List (String × (Nat → AttemptEnv)) → List Row × Bool
  | [] => ([], true)
  | (name, envs) :: rest =>
    let rowd := docRow name envs
    if rowd.all (fun kv => decide (kv.1 ∈ fieldnames)) then
      (renderRow rowd :: (runBatch rest).1, (runBatch rest).2)
    else ([], false)

/-! ## Concrete environments used by witnesses and counterexamples -/

/-- An environment whose attempt succeeds end to end: upload, thread and
run creation succeed, the first retrieve reports completion, and the second
message holds a text item carrying the JSON record `p`. -/
def okEnv (p : Dict) : AttemptEnv :=
  ⟨.ok "file-1", .ok "thread-1", .ok "run-1", "queued", fun _ => "completed",
   [[ContentItem.nonText], [ContentItem.text "\x7b...\x7d" (.ok p)]], true⟩

/-- The record of the end-to-end success scenario. -/
def payload9 : Dict :=
  [("title", Val.str "Annual Report"), ("author", Val.str "J. Doe"),
   ("date", Val.str "2023-01-01"), ("keywords", Val.arr ["finance", "growth"]),
   ("summary", Val.str "..."), ("page_count", Val.int 12)]

/-- Environment of the end-to-end success scenario. -/
def env9 : AttemptEnv := okEnv payload9

/-- The expected row of the end-to-end success scenario. -/
def row9 : Row :=
  ⟨some (Val.str "report.pdf"), some (Val.str "Annual Report"), some (Val.str "J. Doe"),
   some (Val.str "2023-01-01"), some (Val.arr ["finance", "growth"]),
   some (Val.str "..."), some (Val.int 12), some (Val.str "")⟩

/-- An environment whose upload always fails. -/
def failEnv : AttemptEnv :=
  ⟨.error "upload failed", .ok "thread-1", .ok "run-1", "queued",
   fun _ => "completed", [], true⟩

/-- An environment whose run status is never terminal. -/
def queuedEnv : AttemptEnv :=
  ⟨.ok "file-1", .ok "thread-1", .ok "run-1", "queued", fun _ => "queued", [], true⟩

/-- An environment whose run reaches the terminal status "failed". -/
def env8 : AttemptEnv :=
  ⟨.ok "file-1", .ok "thread-1", .ok "run-1", "failed", fun _ => "completed", [], true⟩

/-- A successful extraction that returns a record with a key outside the
CSV columns. -/
def env2bad : AttemptEnv := okEnv [("bogus", Val.int 1)]

/-- A successful extraction that returns a record with a "filename" key. -/
def env3bad : AttemptEnv := okEnv [("filename", Val.str "evil.pdf")]

/-- A successful extraction whose record is the empty JSON object. -/
def envEmptyRecord : AttemptEnv := okEnv []

/-- A successfully parsed record that carries a "title" field together with
an "error" field whose value is the empty string. -/
def env10 : AttemptEnv := okEnv [("title", Val.str "T"), ("error", Val.str "")]

/-- A successful extraction that omits the optional fields date, keywords
and page_count. -/
def c1Env : AttemptEnv :=
  okEnv [("title", Val.str "T"), ("author", Val.str "A"), ("summary", Val.str "S")]

/-- Attempt environments that fail once and then succeed with the empty
record. -/
def wEnvs4 : Nat → AttemptEnv
  | 0 => failEnv
  | _ + 1 => envEmptyRecord

/-! ## The predicate of claim C1, transcribed from its words -/

/-- A populated cell in the sense of claim C1: present in the row dict and
not the empty string. -/
def populatedCell : Option Val → Bool
  | none => false
  | some (Val.str s) => !s.isEmpty
  | some _ => true

/-- The six schema cells of a row. -/
def rowSchemaCells (r : Row) : List (Option Val) :=
  [r.title, r.author, r.date, r.keywords, r.summary, r.page_count]

/-- Claim C1, transcribed: exactly one of "all schema fields populated and
error empty" and "all schema fields empty and error non-empty" holds. -/
def claimC1 (r : Row) : Bool :=
  let allPop := (rowSchemaCells r).all populatedCell
  let allEmpty := (rowSchemaCells r).all (fun c => !populatedCell c)
  let errPop := populatedCell r.error
  (allPop && !errPop && !(allEmpty && errPop)) ||
    (allEmpty && errPop && !(allPop && !errPop))

/-! ## Helper lemmas on dicts and rows -/

theorem lookup_dset_self (d : Dict) (k : String) (v : Val) :
    (dset d k v).lookup k = some v := by
  simp [dset, List.lookup]

theorem lookup_dset_ne (d : Dict) {k k' : String} (v : Val) (h : k' ≠ k) :
    (dset d k v).lookup k' = d.lookup k' := by
  have hb : (k' == k) = false := beq_eq_false_iff_ne.mpr h
  simp [dset, List.lookup, hb]

theorem lookup_dupdate_notmem (src : Dict) (d : Dict) (k : String)
    (h : k ∉ src.map Prod.fst) : (dupdate d src).lookup k = d.lookup k := by
  induction src generalizing d with
  | nil => rfl
  | cons a t ih =>
    simp only [List.map_cons, List.mem_cons, not_or] at h
    have step : dupdate d (a :: t) = dupdate (dset d a.1 a.2) t := rfl
    rw [step, ih _ h.2, lookup_dset_ne _ _ h.1]

theorem mem_dupdate {kv : String × Val} (src : Dict) (d : Dict)
    (h : kv ∈ dupdate d src) : kv ∈ d ∨ kv ∈ src := by
  induction src generalizing d with
  | nil => exact Or.inl h
  | cons a t ih =>
    have step : dupdate d (a :: t) = dupdate (dset d a.1 a.2) t := rfl
    rw [step] at h
    rcases ih _ h with h' | h'
    · rcases List.mem_cons.mp h' with h'' | h''
      · exact Or.inr (List.mem_cons.mpr (Or.inl h''))
      · exact Or.inl h''
    · exact Or.inr (List.mem_cons.mpr (Or.inr h'))

theorem lookup_append (l1 l2 : Dict) (k : String) :
    (l1 ++ l2).lookup k = (l1.lookup k).or (l2.lookup k) := by
  induction l1 with
  | nil => rfl
  | cons a t ih =>
    obtain ⟨k0, v⟩ := a
    cases h : k == k0 with
    | true => simp [List.lookup, h, Option.or]
    | false => simp [List.lookup, h, ih]

/-- Looking a key up after a dict update: the update's own last binding of
the key wins, else the original dict's binding remains. -/
theorem lookup_dupdate_eq (p : Dict) (d : Dict) (k : String) :
    (dupdate d p).lookup k = (dget p k).or (d.lookup k) := by
  induction p generalizing d with
  | nil => rfl
  | cons a t ih =>
    obtain ⟨k0, v⟩ := a
    have step : dupdate d ((k0, v) :: t) = dupdate (dset d k0 v) t := rfl
    have hrev : ((k0, v) :: t).reverse = t.reverse ++ [(k0, v)] := by simp
    have hget : dget ((k0, v) :: t) k = (dget t k).or (([(k0, v)] : Dict).lookup k) := by
      rw [dget, hrev, lookup_append]
      rfl
    rw [step, ih, hget]
    cases h : k == k0 with
    | true =>
      have h1 : (dset d k0 v).lookup k = some v := by simp [dset, List.lookup, h]
      have h2 : ([(k0, v)] : Dict).lookup k = some v := by simp [List.lookup, h]
      rw [h1, h2]
      cases dget t k <;> rfl
    | false =>
      have h1 : (dset d k0 v).lookup k = d.lookup k := by simp [dset, List.lookup, h]
      have h2 : ([(k0, v)] : Dict).lookup k = none := by simp [List.lookup, h]
      rw [h1, h2]
      cases dget t k <;> rfl

/-- Shape of the row dict of one document: on success the error cell is the
empty string; on final failure the row dict is literally the filename plus
the error message. -/
theorem docRow_shape (name : String) (envs : Nat → AttemptEnv) :
    (∃ p, (retryFull envs).1 = .ok p ∧
      (docRow name envs).lookup "error" = some (Val.str "")) ∨
    (∃ e, (retryFull envs).1 = .error e ∧
      docRow name envs = [("error", Val.str e), ("filename", Val.str name)]) := by
  cases hr : (retryFull envs).1 with
  | ok p =>
    exact Or.inl ⟨p, rfl, by simp only [docRow, hr]; exact lookup_dset_self _ _ _⟩
  | error e =>
    exact Or.inr ⟨e, rfl, by simp only [docRow, hr]; rfl⟩

/-- Every row of the batch output is the rendered row of one of its
documents. -/
theorem row_mem_runBatch {r : Row} :
    ∀ docs : List (String × (Nat → AttemptEnv)), r ∈ (runBatch docs).1 →
      ∃ name envs, (name, envs) ∈ docs ∧ r = renderRow (docRow name envs) := by
  intro docs
  induction docs with
  | nil => intro h; simp [runBatch] at h
  | cons d rest ih =>
    obtain ⟨name, envs⟩ := d
    intro h
    simp only [runBatch] at h
    by_cases hc : (docRow name envs).all (fun kv => decide (kv.1 ∈ fieldnames)) = true
    · rw [if_pos hc] at h
      rcases List.mem_cons.mp h with h' | h'
      · exact ⟨name, envs, List.mem_cons_self _ _, h'⟩
      · obtain ⟨n', e', hmem, hr⟩ := ih h'
        exact ⟨n', e', List.mem_cons_of_mem _ hmem, hr⟩
    · rw [if_neg hc] at h
      simp at h

/-- A document's attempt environments are well-behaved when any successful
final payload only uses the schema's field names. -/
def goodEnvs (envs : Nat → AttemptEnv) : Prop :=
  ∀ p, (retryFull envs).1 = .ok p → ∀ kv ∈ p, kv.1 ∈ schemaFields

theorem docRow_keys (name : String) (envs : Nat → AttemptEnv)
    (h : goodEnvs envs) : ∀ kv ∈ docRow name envs, kv.1 ∈ fieldnames := by
  have herr : "error" ∈ fieldnames := by decide
  have hfn : "filename" ∈ fieldnames := by decide
  intro kv hkv
  cases hr : (retryFull envs).1 with
  | ok p =>
    simp only [docRow, hr] at hkv
    rcases List.mem_cons.mp hkv with h' | h'
    · rw [h']; exact herr
    · rcases mem_dupdate _ _ h' with h'' | h''
      · rcases List.mem_singleton.mp h'' with rfl; exact hfn
      · have hs := h p hr kv h''
        exact List.mem_cons_of_mem _ (List.mem_append_left _ hs)
  | error e =>
    simp only [docRow, hr, dset] at hkv
    rcases List.mem_cons.mp hkv with h' | h'
    · rw [h']; exact herr
    · rcases List.mem_singleton.mp h' with rfl; exact hfn

theorem docRow_filename (name : String) (envs : Nat → AttemptEnv)
    (h : goodEnvs envs) :
    (docRow name envs).lookup "filename" = some (Val.str name) := by
  cases hr : (retryFull envs).1 with
  | ok p =>
    simp only [docRow, hr]
    rw [lookup_dset_ne _ _ (by decide), lookup_dupdate_notmem]
    · rfl
    · intro hmem
      obtain ⟨kv, hkv, hfst⟩ := List.mem_map.mp hmem
      have := h p hr kv hkv
      rw [hfst] at this
      exact absurd this (by decide)
  | error e =>
    simp only [docRow, hr]
    rfl

/-- When every document is well-behaved, the batch runs to completion and
writes exactly one rendered row per document, in order. -/
theorem runBatch_complete (docs : List (String × (Nat → AttemptEnv)))
    (h : ∀ d ∈ docs, goodEnvs d.2) :
    runBatch docs = (docs.map (fun d => renderRow (docRow d.1 d.2)), true) := by
  induction docs with
  | nil => rfl
  | cons d rest ih =>
    obtain ⟨name, envs⟩ := d
    have hg : goodEnvs envs := h _ (List.mem_cons_self _ _)
    have hc : (docRow name envs).all (fun kv => decide (kv.1 ∈ fieldnames)) = true := by
      rw [List.all_eq_true]
      intro kv hkv
      simpa using docRow_keys name envs hg kv hkv
    simp only [runBatch, hc, if_pos]
    rw [ih (fun d hd => h d (List.mem_cons_of_mem _ hd))]
    rfl

/-- Full characterisation of the polling loop from position `k`: either a
terminal status is observed at some check `j` with `k ≤ j ≤ 61` and the
loop returns it, or every status checked is non-terminal and the loop stops
with the timeout error after the 61st sleep. -/
theorem pollLoop_spec (retrieve : Nat → String) (s0 : String) :
    ∀ fuel k, fuel + k = 62 → k ≤ 61 →
      (∃ j, k ≤ j ∧ j ≤ 61 ∧ isTerminal (statusAt retrieve s0 j) = true ∧
        pollLoop retrieve fuel (statusAt retrieve s0 k) k
          = (.ok (statusAt retrieve s0 j), j)) ∨
      ((∀ j, k ≤ j → j ≤ 61 → isTerminal (statusAt retrieve s0 j) = false) ∧
        pollLoop retrieve fuel (statusAt retrieve s0 k) k
          = (.error "Processing timed out", 61)) := by
  intro fuel
  induction fuel with
  | zero => intro k h hk; omega
  | succ fuel ih =>
    intro k h hk
    by_cases ht : isTerminal (statusAt retrieve s0 k) = true
    · exact Or.inl ⟨k, le_refl _, hk, ht, by simp [pollLoop, ht]⟩
    · have ht' : isTerminal (statusAt retrieve s0 k) = false :=
        Bool.eq_false_iff.mpr ht
      by_cases h61 : k = 61
      · subst h61
        refine Or.inr ⟨?_, ?_⟩
        · intro j hj hj'
          have hje : j = 61 := le_antisymm hj' hj
          subst hje
          exact ht'
        · simp [pollLoop, ht']
      · have hk' : k + 1 ≤ 61 := by omega
        have hstat : statusAt retrieve s0 (k + 1) = retrieve k := rfl
        have hrec : pollLoop retrieve (fuel + 1) (statusAt retrieve s0 k) k
            = pollLoop retrieve fuel (statusAt retrieve s0 (k + 1)) (k + 1) := by
          have hle : ¬ 5 * k > 300 := by omega
          rw [hstat]
          simp [pollLoop, ht', hle]
        rcases ih (k + 1) (by omega) hk' with ⟨j, hj1, hj2, hj3, hj4⟩ | ⟨hall, heq⟩
        · exact Or.inl ⟨j, by omega, hj2, hj3, by rw [hrec]; exact hj4⟩
        · refine Or.inr ⟨?_, by rw [hrec]; exact heq⟩
          intro j hj hj'
          rcases Nat.eq_or_lt_of_le hj with rfl | hlt
          · exact ht'
          · exact hall j hlt hj'

/-- The four possible shapes of one full retry loop: success on attempt 0,
1 or 2, or failure of all three attempts. -/
theorem retryFull_cases (envs : Nat → AttemptEnv) :
    (∃ p, attemptOnce (envs 0) = .ok p ∧ retryFull envs = (.ok p, 1, [])) ∨
    (∃ e0 p, attemptOnce (envs 0) = .error e0 ∧ attemptOnce (envs 1) = .ok p ∧
      retryFull envs = (.ok p, 2, [1])) ∨
    (∃ e0 e1 p, attemptOnce (envs 0) = .error e0 ∧ attemptOnce (envs 1) = .error e1 ∧
      attemptOnce (envs 2) = .ok p ∧ retryFull envs = (.ok p, 3, [1, 2])) ∨
    (∃ e0 e1 e2, attemptOnce (envs 0) = .error e0 ∧ attemptOnce (envs 1) = .error e1 ∧
      attemptOnce (envs 2) = .error e2 ∧ retryFull envs = (.error e2, 3, [1, 2])) := by
  cases h0 : attemptOnce (envs 0) with
  | ok p => exact Or.inl ⟨p, rfl, by simp [retryFull, retryGo, h0]⟩
  | error e0 =>
    cases h1 : attemptOnce (envs 1) with
    | ok p =>
      exact Or.inr (Or.inl ⟨e0, p, rfl, rfl, by simp [retryFull, retryGo, h0, h1]⟩)
    | error e1 =>
      cases h2 : attemptOnce (envs 2) with
      | ok p =>
        exact Or.inr (Or.inr (Or.inl
          ⟨e0, e1, p, rfl, rfl, rfl, by simp [retryFull, retryGo, h0, h1, h2]⟩))
      | error e2 =>
        exact Or.inr (Or.inr (Or.inr
          ⟨e0, e1, e2, rfl, rfl, rfl, by simp [retryFull, retryGo, h0, h1, h2]⟩))

/-- On a successful retry with record `p`, every schema column of the
document's row holds exactly the record's binding of that field (absent
fields stay empty): the filename seed and the error reset never collide
with a schema key. -/
theorem docRow_success_cells (name : String) (envs : Nat → AttemptEnv)
    (p : Dict) (hp : (retryFull envs).1 = .ok p) (k : String)
    (hk : k ∈ schemaFields) :
    (docRow name envs).lookup k = dget p k := by
  have hkerr : k ≠ "error" := by
    intro he
    rw [he] at hk
    exact absurd hk (by decide)
  have hkfn : k ≠ "filename" := by
    intro he
    rw [he] at hk
    exact absurd hk (by decide)
  simp only [docRow, hp]
  rw [lookup_dset_ne _ _ hkerr, lookup_dupdate_eq]
  have h0 : ([("filename", Val.str name)] : Dict).lookup k = none := by
    have hb : (k == "filename") = false := beq_eq_false_iff_ne.mpr hkfn
    simp [List.lookup, hb]
  rw [h0]
  cases dget p k <;> rfl

/-- When the whole retry loop fails, the message it fails with is the third
attempt's error message. -/
theorem retryFull_error_last (envs : Nat → AttemptEnv) (e : String)
    (h : (retryFull envs).1 = .error e) : attemptOnce (envs 2) = .error e := by
  rcases retryFull_cases envs with ⟨p, h0, he⟩ | ⟨e0, p, h0, h1, he⟩ |
    ⟨e0, e1, p, h0, h1, h2, he⟩ | ⟨e0, e1, e2, h0, h1, h2, he⟩ <;>
    rw [he] at h
  · simp at h
  · simp at h
  · simp at h
  · have he2 : e2 = e := by injection h
    rw [← he2]
    exact h2

/-! ## Claim theorems -/

/-- C4: for every document, processDocument is attempted at most 3 times
(and at least once); the backoff sleeps are exactly 2 ^ 0, ..., 2 ^ (n-2)
between the n attempts, so a sleep occurs between consecutive attempts and
never after the last; every attempt before the last one failed, and if the
loop ended in success, the last attempt is the succeeding one and the
document's row has an empty error cell. -/
theorem claim_c4_retry (name : String) (envs : Nat → AttemptEnv) :
    (retryFull envs).2.1 ≤ 3 ∧ 1 ≤ (retryFull envs).2.1 ∧
    (retryFull envs).2.2 =
      (List.range ((retryFull envs).2.1 - 1)).map (fun i => 2 ^ i) ∧
    (∀ k, k < (retryFull envs).2.1 - 1 → ∃ e, attemptOnce (envs k) = .error e) ∧
    (∀ p, (retryFull envs).1 = .ok p →
      attemptOnce (envs ((retryFull envs).2.1 - 1)) = .ok p ∧
      (renderRow (docRow name envs)).error = some (Val.str "")) := by
  have hrow : ∀ p, (retryFull envs).1 = .ok p →
      (renderRow (docRow name envs)).error = some (Val.str "") := by
    intro p hp
    simp only [docRow, hp, renderRow]
    exact lookup_dset_self _ _ _
  rcases retryFull_cases envs with ⟨p, h0, he⟩ | ⟨e0, p, h0, h1, he⟩ |
    ⟨e0, e1, p, h0, h1, h2, he⟩ | ⟨e0, e1, e2, h0, h1, h2, he⟩ <;>
    rw [he]
  · refine ⟨by norm_num, by norm_num, rfl, ?_, ?_⟩
    · intro k hk
      simp at hk
    · intro q hq
      have hq' : p = q := by injection hq
      cases hq'
      exact ⟨h0, hrow p (by rw [he])⟩
  · refine ⟨by norm_num, by norm_num, rfl, ?_, ?_⟩
    · intro k hk
      have hk0 : k = 0 := by simp at hk; omega
      subst hk0
      exact ⟨e0, h0⟩
    · intro q hq
      have hq' : p = q := by injection hq
      cases hq'
      exact ⟨h1, hrow p (by rw [he])⟩
  · refine ⟨by norm_num, by norm_num, rfl, ?_, ?_⟩
    · intro k hk
      have hk01 : k = 0 ∨ k = 1 := by simp at hk; omega
      rcases hk01 with rfl | rfl
      · exact ⟨e0, h0⟩
      · exact ⟨e1, h1⟩
    · intro q hq
      have hq' : p = q := by injection hq
      cases hq'
      exact ⟨h2, hrow p (by rw [he])⟩
  · refine ⟨by norm_num, by norm_num, rfl, ?_, ?_⟩
    · intro k hk
      have hk01 : k = 0 ∨ k = 1 := by simp at hk; omega
      rcases hk01 with rfl | rfl
      · exact ⟨e0, h0⟩
      · exact ⟨e1, h1⟩
    · intro q hq
      simp at hq

/-- C4 witness: a document failing once and then succeeding makes exactly 2
attempts with one backoff sleep of 2 ^ 0, the second attempt being the
succeeding one, and its row's error cell is empty. -/
theorem claim_c4_retry_witness :
    (retryFull wEnvs4).2.2 = [1] ∧
    attemptOnce (wEnvs4 ((retryFull wEnvs4).2.1 - 1)) = .ok [] ∧
    (renderRow (docRow "w4.pdf" wEnvs4)).error = some (Val.str "") ∧
    (∃ e, attemptOnce (wEnvs4 0) = .error e) := by
  have h := claim_c4_retry "w4.pdf" wEnvs4
  have hok := h.2.2.2.2 [] rfl
  exact ⟨h.2.2.1.trans rfl, hok.1, hok.2, h.2.2.2.1 0 (by decide)⟩

/-- C5: a document all of whose 3 attempts fail makes exactly 3 attempts
with the two backoff sleeps 2 ^ 0 and 2 ^ 1, and its row has all schema
cells empty and the error cell equal to the third attempt's message. -/
theorem claim_c5_all_fail (name : String) (envs : Nat → AttemptEnv)
    (m : Nat → String)
    (h0 : attemptOnce (envs 0) = .error (m 0))
    (h1 : attemptOnce (envs 1) = .error (m 1))
    (h2 : attemptOnce (envs 2) = .error (m 2)) :
    retryFull envs = (.error (m 2), 3, [1, 2]) ∧
    renderRow (docRow name envs) =
      ⟨some (Val.str name), none, none, none, none, none, none,
        some (Val.str (m 2))⟩ := by
  have he : retryFull envs = (.error (m 2), 3, [1, 2]) := by
    simp [retryFull, retryGo, h0, h1, h2]
  have h1' : (retryFull envs).1 = .error (m 2) := by rw [he]
  refine ⟨he, ?_⟩
  simp only [docRow, h1']
  rfl

/-- C5 witness: a document whose upload always fails makes 3 attempts, 2
backoff sleeps, and yields a row with empty schema cells whose error is the
upload failure description. -/
theorem claim_c5_witness :
    retryFull (fun _ => failEnv) = (.error "upload failed", 3, [1, 2]) ∧
    renderRow (docRow "w5.pdf" (fun _ => failEnv)) =
      ⟨some (Val.str "w5.pdf"), none, none, none, none, none, none,
        some (Val.str "upload failed")⟩ :=
  claim_c5_all_fail "w5.pdf" (fun _ => failEnv) (fun _ => "upload failed") rfl rfl rfl

/-- C6: the polling phase always terminates: either some check within the
first 61 run-status checks (elapsed budget 300 time-units at 5 per sleep)
observes a terminal status, which the loop returns, or the attempt fails
with the timeout error after the 61st sleep; in particular if no status
observed within the budget is terminal, the result is the timeout error,
never an infinite wait. -/
theorem claim_c6_poll (env : AttemptEnv) :
    ((∃ st k, k ≤ 61 ∧ isTerminal st = true ∧ pollRun env = (.ok st, k)) ∨
      pollRun env = (.error "Processing timed out", 61)) ∧
    ((∀ k, k ≤ 61 →
        isTerminal (statusAt env.retrieve env.initialStatus k) = false) →
      pollRun env = (.error "Processing timed out", 61)) := by
  have hs := pollLoop_spec env.retrieve env.initialStatus 62 0 rfl (by omega)
  constructor
  · rcases hs with ⟨j, _, hj2, hj3, hj4⟩ | ⟨_, heq⟩
    · exact Or.inl ⟨statusAt env.retrieve env.initialStatus j, j, hj2, hj3, hj4⟩
    · exact Or.inr heq
  · intro hall
    rcases hs with ⟨j, _, hj2, hj3, hj4⟩ | ⟨_, heq⟩
    · rw [hall j hj2] at hj3
      exact absurd hj3 (by simp)
    · exact heq

/-- C6 witness: a run whose status stays "queued" forever times out with 61
sleeps instead of hanging. -/
theorem claim_c6_witness :
    (∀ k, k ≤ 61 →
      isTerminal (statusAt queuedEnv.retrieve queuedEnv.initialStatus k) = false) ∧
    pollRun queuedEnv = (.error "Processing timed out", 61) := by
  have hall : ∀ k, k ≤ 61 →
      isTerminal (statusAt queuedEnv.retrieve queuedEnv.initialStatus k) = false := by
    intro k _
    cases k with
    | zero => rfl
    | succ k => rfl
  exact ⟨hall, (claim_c6_poll queuedEnv).2 hall⟩

/-- C7: a deletion call is issued exactly once for the uploaded file id
when the upload succeeded, never when it failed, and the success or failure
of the deletion itself changes neither the attempt's payload nor its
deletion calls. -/
theorem claim_c7_cleanup (env : AttemptEnv) :
    (∀ fid, env.upload = .ok fid → (process_pdf env).deletes = [fid]) ∧
    (∀ e, env.upload = .error e → (process_pdf env).deletes = []) ∧
    (∀ b, (process_pdf (setDeleteOk env b)).payload = (process_pdf env).payload ∧
      (process_pdf (setDeleteOk env b)).deletes = (process_pdf env).deletes) := by
  obtain ⟨u, t, rc, st, rtv, msgs, dok⟩ := env
  refine ⟨?_, ?_, ?_⟩
  · intro fid h
    cases h
    rfl
  · intro e h
    cases h
    rfl
  · intro b
    cases u with
    | error e => exact ⟨rfl, rfl⟩
    | ok fid => exact ⟨rfl, rfl⟩

/-- C7 witness: in the end-to-end success environment the uploaded file id
is deleted exactly once, and a failing deletion leaves the payload
unchanged. -/
theorem claim_c7_witness :
    (process_pdf env9).deletes = ["file-1"] ∧
    (process_pdf (setDeleteOk env9 false)).payload = (process_pdf env9).payload :=
  ⟨(claim_c7_cleanup env9).1 "file-1" rfl, ((claim_c7_cleanup env9).2.2 false).1⟩

/-- C8: when the run reaches a terminal status other than "completed", the
attempt body fails with an error naming that status; and every
document-local failure is returned by process_pdf as a plain error dict,
not a propagated exception. -/
theorem claim_c8_bad_status (env : AttemptEnv) :
    (∀ tid rid st k, env.threadCreate = .ok tid → env.runCreate = .ok rid →
      pollRun env = (.ok st, k) → st ≠ "completed" →
      (processBody env).1 = .error ("Processing failed with status: " ++ st)) ∧
    (∀ e, attemptOutcome env = .error e →
      (process_pdf env).payload = [("error", Val.str e)]) := by
  constructor
  · intro tid rid st k ht hr hp hst
    have hb : (st == "completed") = false := beq_eq_false_iff_ne.mpr hst
    simp [processBody, ht, hr, hp, hb]
  · intro e he
    cases hu : env.upload with
    | error e0 =>
      have h0 : attemptOutcome env = .error e0 := by simp [attemptOutcome, hu]
      rw [h0] at he
      injection he with he'
      subst he'
      simp [process_pdf, hu]
    | ok fid =>
      have hb : (processBody env).1 = .error e := by
        have h0 : attemptOutcome env = (processBody env).1 := by
          simp [attemptOutcome, hu]
        rw [← h0]
        exact he
      simp [process_pdf, hu, hb]

/-- C8 witness: a run created already in the terminal status "failed" makes
the attempt fail with the error naming that status, returned as the error
dict of the attempt. -/
theorem claim_c8_witness :
    (processBody env8).1 = .error "Processing failed with status: failed" ∧
    (process_pdf env8).payload =
      [("error", Val.str "Processing failed with status: failed")] := by
  have h := claim_c8_bad_status env8
  have h1 := h.1 "thread-1" "run-1" "failed" 0 rfl rfl rfl (by decide)
  exact ⟨h1, h.2 "Processing failed with status: failed" rfl⟩

/-- C9: end-to-end success scenario: one document report.pdf whose first
attempt returns the full record yields exactly one data row holding the
record's fields (keywords being the sequence finance, growth) with an empty
error cell, and the batch completes. -/
theorem claim_c9_end_to_end :
    runBatch [("report.pdf", fun _ => env9)] = ([row9], true) := rfl

/-- C10: whenever every attempt's returned dict carries an "error" key
(whatever its value, including the empty string and including dicts that
also carry schema fields), the retry loop treats each such attempt as
failed with the Python str of that value as the message, and the final row
keeps none of the payload's schema fields. -/
theorem claim_c10_error_key (name : String) (envs : Nat → AttemptEnv)
    (v : Nat → Val)
    (h0 : (process_pdf (envs 0)).payload.lookup "error" = some (v 0))
    (h1 : (process_pdf (envs 1)).payload.lookup "error" = some (v 1))
    (h2 : (process_pdf (envs 2)).payload.lookup "error" = some (v 2)) :
    attemptOnce (envs 0) = .error (pyStr (v 0)) ∧
    retryFull envs = (.error (pyStr (v 2)), 3, [1, 2]) ∧
    renderRow (docRow name envs) =
      ⟨some (Val.str name), none, none, none, none, none, none,
        some (Val.str (pyStr (v 2)))⟩ := by
  have a0 : attemptOnce (envs 0) = .error (pyStr (v 0)) := by
    simp [attemptOnce, h0]
  have a1 : attemptOnce (envs 1) = .error (pyStr (v 1)) := by
    simp [attemptOnce, h1]
  have a2 : attemptOnce (envs 2) = .error (pyStr (v 2)) := by
    simp [attemptOnce, h2]
  have he : retryFull envs = (.error (pyStr (v 2)), 3, [1, 2]) := by
    simp [retryFull, retryGo, a0, a1, a2]
  have h1' : (retryFull envs).1 = .error (pyStr (v 2)) := by rw [he]
  refine ⟨a0, he, ?_⟩
  simp only [docRow, h1']
  rfl

/-- C10 witness: a successfully parsed record carrying a "title" field and
an "error" field with empty value is treated as a failure; the title never
reaches the row, whose error cell holds the empty message. -/
theorem claim_c10_witness :
    (process_pdf env10).payload.lookup "title" = some (Val.str "T") ∧
    renderRow (docRow "doc.pdf" (fun _ => env10)) =
      ⟨some (Val.str "doc.pdf"), none, none, none, none, none, none,
        some (Val.str "")⟩ := by
  have h := claim_c10_error_key "doc.pdf" (fun _ => env10) (fun _ => Val.str "")
    rfl rfl rfl
  exact ⟨rfl, h.2.2⟩

/-- C1 counterexample: a successful extraction that omits the optional
date, keywords and page_count fields produces an actual output row (it is a
member of the batch output) on which the claimed exactly-one-of condition
is false: the error cell is empty, yet not all schema fields are populated
and not all are empty. -/
theorem claim_c1_counterexample :
    claimC1 (renderRow (docRow "doc.pdf" (fun _ => c1Env))) = false ∧
    renderRow (docRow "doc.pdf" (fun _ => c1Env))
      ∈ (runBatch [("doc.pdf", fun _ => c1Env)]).1 := by
  constructor
  · rfl
  · rw [show (runBatch [("doc.pdf", fun _ => c1Env)]).1
        = [renderRow (docRow "doc.pdf" (fun _ => c1Env))] from rfl]
    exact List.mem_singleton_self _

/-- C1 (amended): every row written by the batch comes from one of the
documents, and exactly one of two shapes holds.  If that document's retries
succeeded with record p, the error cell is the empty string and each of the
six schema cells holds exactly p's binding of that field (a field p omits
stays empty — so the original "all schema fields populated" fails for
records omitting optional fields).  If all attempts failed, every schema
cell is empty and the error cell holds the third (final) attempt's error
message, which may itself be the empty string. -/
theorem claim_c1_amended (docs : List (String × (Nat → AttemptEnv))) (r : Row)
    (hr : r ∈ (runBatch docs).1) :
    ∃ name envs, (name, envs) ∈ docs ∧ r = renderRow (docRow name envs) ∧
      ((∃ p, (retryFull envs).1 = .ok p ∧ r.error = some (Val.str "") ∧
        r.title = dget p "title" ∧ r.author = dget p "author" ∧
        r.date = dget p "date" ∧ r.keywords = dget p "keywords" ∧
        r.summary = dget p "summary" ∧ r.page_count = dget p "page_count") ∨
      (∃ e, (retryFull envs).1 = .error e ∧ attemptOnce (envs 2) = .error e ∧
        r.error = some (Val.str e) ∧ r.title = none ∧ r.author = none ∧
        r.date = none ∧ r.keywords = none ∧ r.summary = none ∧
        r.page_count = none)) := by
  obtain ⟨name, envs, hmem, hrow⟩ := row_mem_runBatch docs hr
  subst hrow
  refine ⟨name, envs, hmem, rfl, ?_⟩
  rcases docRow_shape name envs with ⟨p, hp, herr⟩ | ⟨e, he, hd⟩
  · left
    refine ⟨p, hp, herr, ?_, ?_, ?_, ?_, ?_, ?_⟩
    · simp only [renderRow]
      exact docRow_success_cells name envs p hp "title" (by decide)
    · simp only [renderRow]
      exact docRow_success_cells name envs p hp "author" (by decide)
    · simp only [renderRow]
      exact docRow_success_cells name envs p hp "date" (by decide)
    · simp only [renderRow]
      exact docRow_success_cells name envs p hp "keywords" (by decide)
    · simp only [renderRow]
      exact docRow_success_cells name envs p hp "summary" (by decide)
    · simp only [renderRow]
      exact docRow_success_cells name envs p hp "page_count" (by decide)
  · right
    refine ⟨e, he, retryFull_error_last envs e he, ?_⟩
    rw [hd]
    exact ⟨rfl, rfl, rfl, rfl, rfl, rfl, rfl⟩

/-- The single-document batch used by the C1 witness. -/
def wdocs1 : List (String × (Nat → AttemptEnv)) := [("w1.pdf", fun _ => failEnv)]

/-- The row that batch writes for its one failing document. -/
def wrow1 : Row :=
  ⟨some (Val.str "w1.pdf"), none, none, none, none, none, none,
    some (Val.str "upload failed")⟩

/-- C1 witness: the failing document's row is in the batch output and
satisfies the amended disjunction. -/
theorem claim_c1_amended_witness :
    wrow1 ∈ (runBatch wdocs1).1 ∧
    (∃ name envs, (name, envs) ∈ wdocs1 ∧
      wrow1 = renderRow (docRow name envs) ∧
      ((∃ p, (retryFull envs).1 = .ok p ∧ wrow1.error = some (Val.str "") ∧
        wrow1.title = dget p "title" ∧ wrow1.author = dget p "author" ∧
        wrow1.date = dget p "date" ∧ wrow1.keywords = dget p "keywords" ∧
        wrow1.summary = dget p "summary" ∧
        wrow1.page_count = dget p "page_count") ∨
      (∃ e, (retryFull envs).1 = .error e ∧ attemptOnce (envs 2) = .error e ∧
        wrow1.error = some (Val.str e) ∧ wrow1.title = none ∧
        wrow1.author = none ∧ wrow1.date = none ∧ wrow1.keywords = none ∧
        wrow1.summary = none ∧ wrow1.page_count = none))) := by
  have hm : wrow1 ∈ (runBatch wdocs1).1 := by
    rw [show (runBatch wdocs1).1 = [wrow1] from rfl]
    exact List.mem_singleton_self _
  exact ⟨hm, claim_c1_amended wdocs1 wrow1 hm⟩

/-- The single-document batch of the C2 counterexample: its one document
succeeds with a record whose key is outside the CSV columns. -/
def cdocs2 : List (String × (Nat → AttemptEnv)) := [("doc1.pdf", fun _ => env2bad)]

/-- C2 counterexample: a document-local outcome — a successful extraction
whose record carries the key "bogus", outside the CSV columns — makes the
row write raise and terminates the batch: one discovered document, zero
rows written, batch aborted.  So not only assistant-creation and
output-open failures are batch-fatal. -/
theorem claim_c2_counterexample :
    runBatch cdocs2 = ([], false) ∧
    (runBatch cdocs2).1.length ≠ cdocs2.length := by
  exact ⟨rfl, by decide⟩

/-- C2 (amended): per-document failures never terminate the batch, and
provided every successful extraction's record uses only the schema's field
names, the batch runs to completion and writes exactly one row per
document; a successful record with a key outside the CSV columns is a
third batch-fatal condition beyond assistant creation and output opening. -/
theorem claim_c2_amended (docs : List (String × (Nat → AttemptEnv)))
    (h : ∀ d ∈ docs, goodEnvs d.2) :
    (runBatch docs).2 = true ∧ (runBatch docs).1.length = docs.length := by
  rw [runBatch_complete docs h]
  exact ⟨rfl, by simp⟩

/-- The two-document batch used by the C2 witness: an always-failing
document followed by a successful one. -/
def wdocs2 : List (String × (Nat → AttemptEnv)) :=
  [("a.pdf", fun _ => failEnv), ("b.pdf", fun _ => envEmptyRecord)]

/-- Every successful outcome of the C2 witness batch uses only schema
keys: the failing document has no successful outcome, the successful one
returns the empty record. -/
theorem wdocs2_good : ∀ d ∈ wdocs2, goodEnvs d.2 := by
  intro d hd
  rcases List.mem_cons.mp hd with rfl | hd'
  · intro p hp
    rw [show (retryFull (fun _ => failEnv)).1
        = Except.error "upload failed" from rfl] at hp
    exact Except.noConfusion hp
  · rcases List.mem_singleton.mp hd' with rfl
    intro p hp kv hkv
    rw [show (retryFull (fun _ => envEmptyRecord)).1
        = Except.ok ([] : Dict) from rfl] at hp
    have hpnil : ([] : Dict) = p := by injection hp
    rw [← hpnil] at hkv
    exact absurd hkv (List.not_mem_nil kv)

/-- C2 witness: the witness batch — one document failing all attempts, one
succeeding — completes and writes one row per document. -/
theorem claim_c2_amended_witness :
    (runBatch wdocs2).2 = true ∧ (runBatch wdocs2).1.length = wdocs2.length :=
  claim_c2_amended wdocs2 wdocs2_good

/-- C3 counterexample: a successful extraction whose record carries a
"filename" key overwrites the row's filename cell: the single discovered
document report.pdf produces a single row whose filename cell is evil.pdf,
not the document's file name. -/
theorem claim_c3_counterexample :
    (runBatch [("report.pdf", fun _ => env3bad)]).1.map (fun r => r.filename)
      = [some (Val.str "evil.pdf")] ∧
    some (Val.str "evil.pdf") ≠ some (Val.str "report.pdf") := by
  exact ⟨rfl, by decide⟩

/-- C3 (amended): provided every successful extraction's record uses only
the schema's field names (in particular never the key "filename"), the
batch writes exactly one row per discovered document, in discovery order,
and each row's filename cell is the corresponding document's file name. -/
theorem claim_c3_amended (docs : List (String × (Nat → AttemptEnv)))
    (h : ∀ d ∈ docs, goodEnvs d.2) :
    (runBatch docs).1.length = docs.length ∧
    (runBatch docs).1.map (fun r => r.filename)
      = docs.map (fun d => some (Val.str d.1)) := by
  rw [runBatch_complete docs h]
  refine ⟨by simp, ?_⟩
  simp only [List.map_map]
  apply List.map_congr_left
  intro d hd
  exact docRow_filename d.1 d.2 (h d hd)

/-- The single-document batch used by the C3 witness. -/
def wdocs3 : List (String × (Nat → AttemptEnv)) :=
  [("w3.pdf", fun _ => envEmptyRecord)]

/-- Every successful outcome of the C3 witness batch uses only schema
keys: its only document returns the empty record. -/
theorem wdocs3_good : ∀ d ∈ wdocs3, goodEnvs d.2 := by
  intro d hd
  rcases List.mem_singleton.mp hd with rfl
  intro p hp kv hkv
  rw [show (retryFull (fun _ => envEmptyRecord)).1
      = Except.ok ([] : Dict) from rfl] at hp
  have hpnil : ([] : Dict) = p := by injection hp
  rw [← hpnil] at hkv
  exact absurd hkv (List.not_mem_nil kv)

/-- C3 witness: the witness batch writes one row whose filename cell is
the document's name. -/
theorem claim_c3_amended_witness :
    (runBatch wdocs3).1.length = wdocs3.length ∧
    (runBatch wdocs3).1.map (fun r => r.filename)
      = wdocs3.map (fun d => some (Val.str d.1)) :=
  claim_c3_amended wdocs3 wdocs3_good
